import Mathlib

/-!
Shallow embedding of the BLE HTTP proxy service implemented in
`pi_zero_ble_service.py` (NetScout-Go/Plugin_ble_http_proxy), together
with theorems checking the documented behaviour of its write handler,
reassembly table, HTTP parsing and response paths.

Conventions used throughout:
* Python `bytes` values are modelled as `List Nat` (one entry per byte).
* Python `str` values are modelled as `List Char`.
* Python dicts are modelled as association lists with Python dict
  semantics (`dictInsert` keeps the position of an existing key and
  appends a fresh key at the end).  The module-level `request_data`
  dict is keyed by `bytes(value[:16]).hex()`; since `.hex()` is
  injective on byte strings we key the model directly by the 16 raw
  id bytes.
* External effects (logging, D-Bus calls, psutil sampling, clock
  reads, thread startup) are outside the model; the functions below
  return the state mutation plus an outcome describing the externally
  visible action taken.
-/

namespace BleProxy

/-- Python dict lookup on an association list. -/
def dictLookup {α β : Type} [DecidableEq α] : List (α × β) → α → Option β
  | [], _ => none
  | (k2, v) :: rest, k => if k2 = k then some v else dictLookup rest k

/-- Python dict assignment `d[k] = v`: an existing key keeps its position
and gets the new value, a fresh key is appended at the end. -/
def dictInsert {α β : Type} [DecidableEq α] : List (α × β) → α → β → List (α × β)
  | [], k, v => [(k, v)]
  | (k2, v2) :: rest, k, v =>
    if k2 = k then (k, v) :: rest else (k2, v2) :: dictInsert rest k v

/-- The module-level `connection_stats` dict together with the
`connected_devices` set (`pi_zero_ble_service.py` lines 113-121). -/
structure ConnState where
  connectedDevices : Finset String
  totalConnections : Nat
  totalRequests : Nat
  totalBytesSent : Nat
  totalBytesReceived : Nat
  connectedClients : Nat
deriving DecidableEq

/-- `HTTPProxyService.update_connection_stats` (lines 152-179).  The
psutil cpu/memory sampling and the rate-limited status notification
touch no counter tracked here and are omitted. -/
def update_connection_stats (s : ConnState) (device_path : Option String)
    (connected : Option Bool) (bytes_sent bytes_received : Nat) : ConnState :=
  let s1 :=
    match device_path, connected with
    | some p, some c =>
      if c = true ∧ p ∉ s.connectedDevices then
        { s with
          connectedDevices := insert p s.connectedDevices
          totalConnections := s.totalConnections + 1
          connectedClients := (insert p s.connectedDevices).card }
      else if c = false ∧ p ∈ s.connectedDevices then
        { s with
          connectedDevices := s.connectedDevices.erase p
          connectedClients := (s.connectedDevices.erase p).card }
      else s
    | _, _ => s
  { s1 with
    totalBytesSent := s1.totalBytesSent + bytes_sent
    totalBytesReceived := s1.totalBytesReceived + bytes_received
    totalRequests := if 0 < bytes_received then s1.totalRequests + 1 else s1.totalRequests }

/-- The operation named `mark_connected(device_path)` in the service
description; in the code it is the call
`update_connection_stats(device_path, connected=True)`. -/
def mark_connected (s : ConnState) (p : String) : ConnState :=
  update_connection_stats s (some p) (some true) 0 0

/-- The operation named `mark_disconnected(device_path)`; in the code it
is the call `update_connection_stats(device_path, connected=False)`. -/
def mark_disconnected (s : ConnState) (p : String) : ConnState :=
  update_connection_stats s (some p) (some false) 0 0

/-- The module-level `request_data` dict: correlation id (16 raw bytes)
mapped to the accumulated request payload. -/
abbrev Table := List (List Nat × List Nat)

/-- Combined mutable state touched by `HTTPRequestCharacteristic.WriteValue`. -/
structure ServiceState where
  requestData : Table
  conn : ConnState

/-- Externally visible outcome of one `WriteValue` call. -/
inductive WriteOutcome where
  /-- the `len(value) < 17` early return (line 265): table untouched. -/
  | tooShort
  /-- normal return without final processing (covers both a buffered
  frame and the logged-and-ignored unknown-id continuation). -/
  | noSpawn
  /-- a worker thread was started on the given payload (line 295). -/
  | spawned (req_id : List Nat) (payload : List Nat)
  /-- the final `request_data[req_id]` lookup used to build the thread
  arguments raised an uncaught `KeyError`. -/
  | keyError
deriving DecidableEq

/-- The `with data_lock` table-mutation phase of `WriteValue`
(lines 281-291): a FIRST frame (`flags & 0x1 != 0`) overwrites or creates
the entry, a continuation appends when the id is known and is ignored
(error log only) when it is not. -/
def new_table (rd : Table) (value : List Nat) : Table :=
  if value.getD 16 0 &&& 1 ≠ 0 then
    dictInsert rd (value.take 16) (value.drop 17)
  else
    match dictLookup rd (value.take 16) with
    | some buf => dictInsert rd (value.take 16) (buf ++ value.drop 17)
    | none => rd

/-- Frame handling of `WriteValue` after the statistics updates
(lines 264-296): length check, header split (`req_id = value[:16]`,
`flags = value[16]`, `data = value[17:]`), table mutation, and, when
`flags & 0x2 != 0`, the spawn of the worker on `request_data[req_id]`
(whose lookup raises `KeyError` when the id is absent). -/
def write_frame (rd : Table) (value : List Nat) : Table × WriteOutcome :=
  if value.length < 17 then (rd, .tooShort)
  else if value.getD 16 0 &&& 2 ≠ 0 then
    match dictLookup (new_table rd value) (value.take 16) with
    | some buf => (new_table rd value, .spawned (value.take 16) buf)
    | none => (new_table rd value, .keyError)
  else (new_table rd value, .noSpawn)

/-- `HTTPRequestCharacteristic.WriteValue` (lines 247-296): first the two
`update_connection_stats` calls (device registration when a device path
is present, then `bytes_received=len(value)`), then the frame handling. -/
def WriteValue (st : ServiceState) (value : List Nat) (device : Option String) :
    ServiceState × WriteOutcome :=
  let conn1 :=
    match device with
    | some p => update_connection_stats st.conn (some p) (some true) 0 0
    | none => st.conn
  let conn2 := update_connection_stats conn1 none none 0 value.length
  ({ requestData := (write_frame st.requestData value).1, conn := conn2 },
   (write_frame st.requestData value).2)

/-! ### HTTP request processing (`_process_http_request`, lines 298-376)

The handler decodes the reassembled payload as UTF-8 and works on the
resulting text; the model takes the decoded text (`List Char`) as input.
A `ValueError` raised inside the `try` block (no blank line for
`lines.index`, a header line that `split` cannot unpack) and an
exception from `requests.request` are all caught by the single `except`
clause, which stores a synthesized 500 response. -/

/-- Python `s.split("\r\n")`: greedy leftmost non-overlapping split,
never returns an empty list. -/
def splitCRLF : List Char → List (List Char)
  | [] => [[]]
  | '\r' :: '\n' :: rest => [] :: splitCRLF rest
  | c :: rest =>
    match splitCRLF rest with
    | [] => [[c]]
    | l :: ls => (c :: l) :: ls

/-- Python `s.split(sep)` for a one-character separator (keeps empty
pieces, as `split` with an explicit separator does). -/
def splitOnChar (sep : Char) : List Char → List (List Char)
  | [] => [[]]
  | c :: rest =>
    if c = sep then [] :: splitOnChar sep rest
    else
      match splitOnChar sep rest with
      | [] => [[c]]
      | l :: ls => (c :: l) :: ls

/-- Python `s.split(":", 1)` restricted to the case the handler uses:
`none` when the line has no colon (the two-variable unpacking then
raises `ValueError`), otherwise the text before and after the first
colon. -/
def splitFirstColon : List Char → Option (List Char × List Char)
  | [] => none
  | c :: rest =>
    if c = ':' then some ([], rest)
    else (splitFirstColon rest).map fun kv => (c :: kv.1, kv.2)

/-- Python `str.isspace` on the characters `str.strip()` removes. -/
def pyIsSpace (c : Char) : Bool :=
  c == ' ' || c == '\t' || c == '\n' || c == '\r' || c == '\x0B' || c == '\x0C'

/-- Python `s.strip()`. -/
def pyStrip (l : List Char) : List Char :=
  ((l.dropWhile pyIsSpace).reverse.dropWhile pyIsSpace).reverse

/-- Python `lines.index("")`: index of the first empty line, `none` when
there is none (where CPython raises `ValueError`). -/
def index_of_empty : List (List Char) → Option Nat
  | [] => none
  | l :: rest => if l = [] then some 0 else (index_of_empty rest).map (· + 1)

/-- Python `"\r\n".join(lines)`. -/
def joinCRLF : List (List Char) → List Char
  | [] => []
  | [l] => l
  | l :: rest => l ++ ('\r' :: '\n' :: joinCRLF rest)

/-- Request headers as the handler stores them: a Python dict from
stripped header name to stripped value. -/
abbrev Headers := List (List Char × List Char)

/-- The header loop (lines 324-327): `key, value = header_line.split(":", 1)`
then `headers[key.strip()] = value.strip()`; `none` when some line has no
colon and the unpacking raises `ValueError`. -/
def parse_headers : List (List Char) → Headers → Option Headers
  | [], acc => some acc
  | line :: rest, acc =>
    match splitFirstColon line with
    | none => none
    | some kv => parse_headers rest (dictInsert acc (pyStrip kv.1) (pyStrip kv.2))

/-- Stand-in text for `str(e)` of the `ValueError` raised by
`lines.index("")` when no blank line exists.  (The CPython message
contains quote characters; its exact text is not load-bearing.) -/
def valueErrorIndexMsg : List Char := ("empty line is not in list").toList

/-- `str(e)` of the `ValueError` raised by unpacking `split(":", 1)` on a
line without a colon. -/
def valueErrorUnpackMsg : List Char :=
  ("not enough values to unpack (expected 2, got 1)").toList

/-- Result of the parsing phase of `_process_http_request`. -/
inductive ParseResult where
  /-- `len(request_line) != 3`: the handler logs and returns with no
  response stored (line 314). -/
  | badRequestLine
  /-- a `ValueError` escaped to the `except` clause, which will store a
  500 response carrying `str(e)`. -/
  | exc (msg : List Char)
  /-- method, target, version, headers dict and body as forwarded. -/
  | ok (method target httpVer : List Char) (headers : Headers) (body : List Char)
deriving DecidableEq

/-- Lines 302-331 of `_process_http_request`: split on CRLF, split the
request line on spaces (exactly three tokens required), find the blank
line, parse the headers, and take the remaining lines re-joined with
CRLF as the body.  The `if not lines` guard in the source is
unreachable (`split` never returns an empty list). -/
def parse_http_request (req : List Char) : ParseResult :=
  let lines := splitCRLF req
  let request_line := splitOnChar ' ' (lines.headD [])
  if request_line.length ≠ 3 then .badRequestLine
  else
    match index_of_empty lines with
    | none => .exc valueErrorIndexMsg
    | some header_end =>
      match parse_headers ((lines.take header_end).drop 1) [] with
      | none => .exc valueErrorUnpackMsg
      | some headers =>
        let body :=
          if header_end < lines.length - 1 then joinCRLF (lines.drop (header_end + 1))
          else []
        .ok (request_line.getD 0 []) (request_line.getD 1 [])
          (request_line.getD 2 []) headers body

/-- Outcome of the forwarded call `requests.request(...)` to the local
origin server: either a response (status, reason, headers, text) or a
raised exception with message `str(e)` (connection errors, timeouts and
every other failure all surface this way). -/
inductive OriginResult where
  | ok (statusCode : Nat) (reason : List Char) (headers : Headers) (body : List Char)
  | exc (msg : List Char)

/-- The origin client as an oracle: method, target path, headers, body
in; an `OriginResult` out. -/
abbrev Origin := List Char → List Char → Headers → List Char → OriginResult

/-- Lines 346-356: `resp_str = f"{http_ver} {status_code} {reason}\r\n"`
followed by `key: value\r\n` per header, a blank line, and the body.
Note the status line reuses the version token taken from the request. -/
def build_response (httpVer : List Char) (code : Nat) (reason : List Char)
    (hdrs : Headers) (body : List Char) : List Char :=
  httpVer ++ [' '] ++ Nat.toDigits 10 code ++ [' '] ++ reason ++ ['\r', '\n']
    ++ (hdrs.map fun kv => kv.1 ++ [':', ' '] ++ kv.2 ++ ['\r', '\n']).flatten
    ++ ['\r', '\n'] ++ body

/-- The synthesized error response of the `except` clause
(lines 369-371): always status 500, whatever the exception was. -/
def error_response (msg : List Char) : List Char :=
  ("HTTP/1.1 500 Internal Server Error\r\nContent-Type: text/plain\r\n\r\nError: ").toList
    ++ msg

/-- What `_process_http_request` leaves behind for the central. -/
inductive ProcessResult where
  /-- the handler returned without storing anything in `response_data`
  and without notifying: the request is dropped silently. -/
  | silentDrop
  /-- `response_data[req_id]` is set to this serialized response and the
  ready notification is sent. -/
  | response (resp : List Char)
deriving DecidableEq

/-- `_process_http_request` (lines 298-376) over the decoded request
text and the origin oracle. -/
def process_http_request (origin : Origin) (req : List Char) : ProcessResult :=
  match parse_http_request req with
  | .badRequestLine => .silentDrop
  | .exc msg => .response (error_response msg)
  | .ok m target ver hs body =>
    match origin m target hs body with
    | .ok code reason rh rb => .response (build_response ver code reason rh rb)
    | .exc msg => .response (error_response msg)

/-! ### Response delivery (`_notify_response_ready`, lines 378-398, and
`HTTPResponseCharacteristic.ReadValue`, lines 450-502) -/

/-- `_notify_response_ready`: builds
`notify_data = bytes.fromhex(req_id) + bytes([1])` and passes it to a
single `response_char.set_value` call, which notifies subscribers with
exactly that value.  We record the list of values handed to
`set_value`; `bytes.fromhex` undoes the `.hex()` used as table key, so
the 16 raw id bytes reappear followed by the status byte 1. -/
def notify_response_ready (req_id_bytes : List Nat) : List (List Nat) :=
  [req_id_bytes ++ [1]]

/-- `HTTPProxyService.get_max_attribute_size` (line 215): `mtu - 3`. -/
def get_max_attribute_size (mtu : Nat) : Nat := mtu - 3

/-- The slicing at the end of `ReadValue` (lines 493-502): empty when the
offset is past the stored response, otherwise the slice
`resp_data[offset : offset + max_chunk]`. -/
def read_value (resp_data : List Nat) (offset max_chunk : Nat) : List Nat :=
  if resp_data.length ≤ offset then [] else (resp_data.drop offset).take max_chunk

/-- `HTTPResponseCharacteristic.ReadValue` without its statistics side
effects: requires a `req_id` option and a stored response for it,
then returns the requested slice. -/
def ReadValue (response_data : Table) (req_id : Option (List Nat))
    (offset max_chunk : Nat) : List Nat :=
  match req_id with
  | none => []
  | some rid =>
    match dictLookup response_data rid with
    | none => []
    | some resp => read_value resp offset max_chunk

/-! ### Concrete states and frames used in the witnesses and
counterexamples below -/

/-- Fresh statistics state: no devices, all counters zero. -/
def conn0 : ConnState := ⟨∅, 0, 0, 0, 0, 0⟩

/-- A fixed 16-byte correlation id. -/
def sample_id : List Nat := [1, 2, 3, 4, 5, 6, 7, 8, 9, 10, 11, 12, 13, 14, 15, 16]

/-- Service state with an empty reassembly table and fresh statistics. -/
def empty_state : ServiceState := ⟨[], conn0⟩

/-- A pending buffer of exactly 1 MiB (1048576 bytes). -/
def big_buf : List Nat := List.replicate 1048576 0

/-- Service state whose reassembly table already holds a 1 MiB entry. -/
def cap_state : ServiceState := ⟨[(sample_id, big_buf)], conn0⟩

/-- A continuation frame (flags 0) with a one-byte payload for the
1 MiB entry. -/
def cap_frame : List Nat := sample_id ++ [0, 42]

/-- Statistics state that already knows device path `d`. -/
def conn_in : ConnState := ⟨{("d")}, 1, 0, 0, 0, 1⟩

/-- The serialized response used in the response-path counterexample
(`"hi"` as bytes). -/
def demo_resp : List Nat := [104, 105]

/-- A request whose header block repeats the name `X-A`. -/
def dup_header_req : List Char := ("GET / HTTP/1.1\r\nX-A: 1\r\nX-A: 2\r\n\r\n").toList

/-- A request whose header block has `X-A` and `x-a`, equal up to case. -/
def case_header_req : List Char := ("GET / HTTP/1.1\r\nX-A: 1\r\nx-a: 2\r\n\r\n").toList

/-- Exception text of a connection failure to a closed origin port. -/
def unreachable_msg : List Char := ("Connection refused").toList

/-! ## Helper lemmas -/

theorem dictLookup_insert_self {α β : Type} [DecidableEq α]
    (d : List (α × β)) (k : α) (v : β) :
    dictLookup (dictInsert d k v) k = some v := by
  induction d with
  | nil => simp [dictInsert, dictLookup]
  | cons hd tl ih =>
    obtain ⟨k2, v2⟩ := hd
    by_cases h : k2 = k
    · subst h; simp [dictInsert, dictLookup]
    · simp [dictInsert, dictLookup, h, ih]

theorem dictInsert_keys {α β : Type} [DecidableEq α]
    (d : List (α × β)) (k : α) (v : β) :
    (dictInsert d k v).map Prod.fst
      = if k ∈ d.map Prod.fst then d.map Prod.fst else d.map Prod.fst ++ [k] := by
  induction d with
  | nil => simp [dictInsert]
  | cons hd tl ih =>
    obtain ⟨k2, v2⟩ := hd
    by_cases h : k2 = k
    · subst h; simp [dictInsert]
    · have h2 : ¬ k = k2 := fun hh => h hh.symm
      by_cases hmem : k ∈ tl.map Prod.fst <;>
        simp [dictInsert, h, ih, hmem, h2]

theorem WriteValue_requestData (st : ServiceState) (value : List Nat)
    (d : Option String) :
    (WriteValue st value d).1.requestData = (write_frame st.requestData value).1 := rfl

theorem WriteValue_outcome (st : ServiceState) (value : List Nat)
    (d : Option String) :
    (WriteValue st value d).2 = (write_frame st.requestData value).2 := rfl

theorem WriteValue_conn (st : ServiceState) (value : List Nat) (d : Option String) :
    (WriteValue st value d).1.conn
      = update_connection_stats
          (match d with
           | some p => update_connection_stats st.conn (some p) (some true) 0 0
           | none => st.conn) none none 0 value.length := rfl

theorem new_table_first (rd : Table) (value : List Nat)
    (h1 : value.getD 16 0 &&& 1 ≠ 0) :
    new_table rd value = dictInsert rd (value.take 16) (value.drop 17) := by
  unfold new_table; rw [if_pos h1]

theorem new_table_append (rd : Table) (value buf : List Nat)
    (h1 : value.getD 16 0 &&& 1 = 0)
    (hfound : dictLookup rd (value.take 16) = some buf) :
    new_table rd value = dictInsert rd (value.take 16) (buf ++ value.drop 17) := by
  unfold new_table
  rw [if_neg (not_not_intro h1), hfound]

theorem new_table_unknown (rd : Table) (value : List Nat)
    (h1 : value.getD 16 0 &&& 1 = 0)
    (hnone : dictLookup rd (value.take 16) = none) :
    new_table rd value = rd := by
  unfold new_table
  rw [if_neg (not_not_intro h1), hnone]

theorem write_frame_fst (rd : Table) (value : List Nat) :
    (write_frame rd value).1
      = if value.length < 17 then rd else new_table rd value := by
  unfold write_frame
  by_cases h : value.length < 17
  · rw [if_pos h, if_pos h]
  · rw [if_neg h, if_neg h]
    by_cases h2 : value.getD 16 0 &&& 2 ≠ 0
    · rw [if_pos h2]
      rcases hl : dictLookup (new_table rd value) (value.take 16) with _ | buf <;> rfl
    · rw [if_neg h2]

theorem write_frame_not_final (rd : Table) (value : List Nat)
    (h17 : ¬ value.length < 17)
    (h2 : value.getD 16 0 &&& 2 = 0) :
    write_frame rd value = (new_table rd value, .noSpawn) := by
  unfold write_frame
  rw [if_neg h17, if_neg (not_not_intro h2)]

theorem write_frame_spawn_keeps (rd : Table) (value : List Nat)
    (id payload : List Nat)
    (h : (write_frame rd value).2 = .spawned id payload) :
    dictLookup (write_frame rd value).1 id = some payload := by
  unfold write_frame at h ⊢
  by_cases h17 : value.length < 17
  · rw [if_pos h17] at h
    exact absurd (show WriteOutcome.tooShort = .spawned id payload from h) (by simp)
  · rw [if_neg h17] at h ⊢
    by_cases h2 : value.getD 16 0 &&& 2 ≠ 0
    · rw [if_pos h2] at h ⊢
      rcases hl : dictLookup (new_table rd value) (value.take 16) with _ | buf <;>
        rw [hl] at h
      · exact absurd (show WriteOutcome.keyError = .spawned id payload from h) (by simp)
      · have h3 : WriteOutcome.spawned (value.take 16) buf = .spawned id payload := h
        injection h3 with hid hbuf
        show dictLookup (new_table rd value) id = some payload
        rw [← hid, hl, hbuf]
    · rw [if_neg h2] at h
      exact absurd (show WriteOutcome.noSpawn = .spawned id payload from h) (by simp)

/-- Appending a continuation frame to a known entry: whatever the sizes
involved, the entry is kept and grows by the frame payload; no cap is
checked anywhere. -/
theorem writeValue_append_keeps (st : ServiceState) (value : List Nat)
    (d : Option String) (buf : List Nat)
    (h17 : ¬ value.length < 17)
    (h1 : value.getD 16 0 &&& 1 = 0)
    (h2 : value.getD 16 0 &&& 2 = 0)
    (hfound : dictLookup st.requestData (value.take 16) = some buf) :
    dictLookup (WriteValue st value d).1.requestData (value.take 16)
        = some (buf ++ value.drop 17) ∧
    (WriteValue st value d).2 = .noSpawn := by
  rw [WriteValue_requestData, WriteValue_outcome,
    write_frame_not_final _ _ h17 h2, new_table_append _ _ _ h1 hfound]
  exact ⟨dictLookup_insert_self _ _ _, rfl⟩

theorem uc_totalRequests (s : ConnState) (dp : Option String) (c : Option Bool)
    (bs br : Nat) :
    (update_connection_stats s dp c bs br).totalRequests
      = if 0 < br then s.totalRequests + 1 else s.totalRequests := by
  unfold update_connection_stats
  rcases dp with _ | p <;> rcases c with _ | cc
  case some.some =>
    by_cases hA : cc = true ∧ p ∉ s.connectedDevices
    · simp [hA]
    · by_cases hB : cc = false ∧ p ∈ s.connectedDevices
      · simp [hA, hB]
      · simp [hA, hB]
  all_goals simp

theorem mark_connected_mem (s : ConnState) (p : String)
    (h : p ∈ s.connectedDevices) :
    mark_connected s p = s := by
  unfold mark_connected update_connection_stats
  simp [h]

theorem mark_connected_devices (s : ConnState) (p : String)
    (h : p ∉ s.connectedDevices) :
    (mark_connected s p).connectedDevices = insert p s.connectedDevices := by
  unfold mark_connected update_connection_stats
  simp [h]

theorem mark_disconnected_not_mem (s : ConnState) (p : String)
    (h : p ∉ s.connectedDevices) :
    mark_disconnected s p = s := by
  unfold mark_disconnected update_connection_stats
  simp [h]

theorem mark_disconnected_devices (s : ConnState) (p : String)
    (h : p ∈ s.connectedDevices) :
    (mark_disconnected s p).connectedDevices = s.connectedDevices.erase p := by
  unfold mark_disconnected update_connection_stats
  simp [h]

theorem error_response_take34 (msg : List Char) :
    (error_response msg).take 34 = ("HTTP/1.1 500 Internal Server Error").toList := by
  have h1 :
      (("HTTP/1.1 500 Internal Server Error\r\nContent-Type: text/plain\r\n\r\nError: ").toList).take 34
        = ("HTTP/1.1 500 Internal Server Error").toList := by decide
  have h2 :
      34 - (("HTTP/1.1 500 Internal Server Error\r\nContent-Type: text/plain\r\n\r\nError: ").toList).length
        = 0 := by decide
  rw [error_response, List.take_append_eq_append_take, h1, h2, List.take_zero,
    List.append_nil]

/-! ## Claim theorems -/

/-- C1: for a completed request the code does not chunk the serialized
response into notification frames at all.  Evaluated at the failing
input (correlation id `sample_id`, stored response `demo_resp` = `"hi"`):
the notification path emits exactly one value, the 16 raw id bytes
followed by the status byte 1; that frame is 17 bytes long, its flag
byte has the LAST bit (bit 1) clear, and its payload (bytes 17..) is
empty rather than the serialized response. -/
theorem c1_notify_is_single_ready_frame :
    notify_response_ready sample_id = [sample_id ++ [1]] ∧
    (sample_id ++ [1]).length = 17 ∧
    (sample_id ++ [1]).getD 16 0 &&& 2 = 0 ∧
    (sample_id ++ [1]).drop 17 = [] ∧
    (sample_id ++ [1]).drop 17 ≠ demo_resp :=
  ⟨rfl, by decide, by decide, by decide, by decide⟩

/-- Reads, not notifications, deliver the stored response: concatenating
the `ReadValue` slices taken at offsets `0, c, 2*c, ...` (chunk size `c`,
any `n` with `n * c` covering the response) reproduces the stored
response exactly. -/
theorem read_value_reconstructs (c : Nat) :
    ∀ (n : Nat) (resp : List Nat), resp.length ≤ n * c →
      (((List.range n).map fun i => read_value resp (i * c) c)).flatten = resp := by
  intro n
  induction n with
  | zero =>
    intro resp h
    rw [Nat.zero_mul] at h
    have : resp = [] := List.length_eq_zero.mp (Nat.le_zero.mp h)
    subst this
    simp
  | succ n ih =>
    intro resp h
    have hshift : ∀ i : Nat,
        read_value resp ((i + 1) * c) c = read_value (resp.drop c) (i * c) c := by
      intro i
      unfold read_value
      rw [List.length_drop]
      have hmul : (i + 1) * c = i * c + c := by ring
      rw [hmul]
      generalize i * c = a
      by_cases hle : resp.length ≤ a + c
      · rw [if_pos hle, if_pos (by omega : resp.length - c ≤ a)]
      · rw [if_neg hle, if_neg (by omega : ¬ resp.length - c ≤ a), List.drop_drop,
          Nat.add_comm]
    rw [List.range_succ_eq_map, List.map_cons, List.map_map, List.flatten_cons]
    have hmap : ((List.range n).map fun i =>
        (fun j => read_value resp (j * c) c) (Nat.succ i))
        = (List.range n).map fun i => read_value (resp.drop c) (i * c) c := by
      apply List.map_congr_left
      intro i _
      exact hshift i
    have hdrop : (resp.drop c).length ≤ n * c := by
      rw [List.length_drop]
      have : (n + 1) * c = n * c + c := by ring
      omega
    rw [show ((List.range n).map ((fun j => read_value resp (j * c) c) ∘ Nat.succ))
        = (List.range n).map fun i => read_value (resp.drop c) (i * c) c from hmap,
      ih (resp.drop c) hdrop]
    by_cases h0 : resp.length ≤ 0
    · have : resp = [] := List.length_eq_zero.mp (Nat.le_zero.mp h0)
      subst this
      simp [read_value]
    · rw [show read_value resp (0 * c) c = resp.take c by
        unfold read_value
        rw [Nat.zero_mul, if_neg h0, List.drop_zero]]
      exact List.take_append_drop c resp

/-- C2: when a write spawns a worker (a frame with the LAST bit whose id
resolves), the reassembly-table entry is NOT removed — after the call the
table still maps the correlation id to the completed payload. -/
theorem c2_spawn_keeps_entry (st : ServiceState) (value : List Nat)
    (d : Option String) (id payload : List Nat)
    (h : (WriteValue st value d).2 = .spawned id payload) :
    dictLookup (WriteValue st value d).1.requestData id = some payload := by
  rw [WriteValue_requestData]
  rw [WriteValue_outcome] at h
  exact write_frame_spawn_keeps _ _ _ _ h

theorem c2_spawn_keeps_entry_witness :
    dictLookup (WriteValue empty_state (sample_id ++ [3, 104, 105]) none).1.requestData
        sample_id = some [104, 105] :=
  c2_spawn_keeps_entry empty_state (sample_id ++ [3, 104, 105]) none sample_id
    [104, 105] (by decide)

/-- C2 counterexample: a single FIRST+LAST frame on an empty table spawns
the worker, yet the table still contains the correlation id afterwards,
contradicting removal at the same step. -/
theorem c2_counterexample_entry_survives_last :
    (WriteValue empty_state (sample_id ++ [3, 104, 105]) none).2
        = .spawned sample_id [104, 105] ∧
    dictLookup (WriteValue empty_state (sample_id ++ [3, 104, 105]) none).1.requestData
        sample_id = some [104, 105] :=
  ⟨by decide, by decide⟩

/-- C3 (amended): whenever parsing succeeds and the forwarded origin call
raises — whatever the failure kind, connection refused and timeout
included — the handler stores the synthesized error response, whose
status line is always `HTTP/1.1 500 Internal Server Error`; a valid HTTP
response is produced rather than a silent drop. -/
theorem c3_forward_failure_always_500 (req m target ver : List Char)
    (hs : Headers) (body msg : List Char)
    (hp : parse_http_request req = .ok m target ver hs body) :
    process_http_request (fun _ _ _ _ => .exc msg) req
        = .response (error_response msg) ∧
    (error_response msg).take 34 = ("HTTP/1.1 500 Internal Server Error").toList := by
  constructor
  · unfold process_http_request
    rw [hp]
  · exact error_response_take34 msg

theorem c3_forward_failure_always_500_witness :
    process_http_request (fun _ _ _ _ => .exc (("boom").toList))
        (("GET / HTTP/1.1\r\n\r\n").toList)
      = .response (error_response (("boom").toList)) ∧
    (error_response (("boom").toList)).take 34
      = ("HTTP/1.1 500 Internal Server Error").toList :=
  c3_forward_failure_always_500 (("GET / HTTP/1.1\r\n\r\n").toList) (("GET").toList)
    (("/").toList) (("HTTP/1.1").toList) [] [] (("boom").toList) (by decide)

/-- C3 counterexample: an unreachable origin (connection refused) yields
the 500 response, not the `502 Bad Gateway` the claim requires. -/
theorem c3_counterexample_unreachable_is_500 :
    process_http_request (fun _ _ _ _ => .exc unreachable_msg)
        (("GET / HTTP/1.1\r\nHost: x\r\n\r\n").toList)
      = .response (error_response unreachable_msg) ∧
    (error_response unreachable_msg).take 12 = ("HTTP/1.1 500").toList ∧
    ("HTTP/1.1 500").toList ≠ ("HTTP/1.1 502").toList :=
  ⟨by decide, by decide, by decide⟩

/-- C4 (amended): `total_requests` increases by exactly one on EVERY
write whose byte string is non-empty — the statistics update runs before
the frame is examined, so non-final frames and writes rejected as too
short are counted as well. -/
theorem c4_total_requests_every_write (st : ServiceState) (value : List Nat)
    (d : Option String) (h : 0 < value.length) :
    (WriteValue st value d).1.conn.totalRequests = st.conn.totalRequests + 1 := by
  rw [WriteValue_conn, uc_totalRequests, if_pos h]
  rcases d with _ | p
  · rfl
  · rw [uc_totalRequests]
    simp

theorem c4_total_requests_every_write_witness :
    (WriteValue empty_state [7] none).1.conn.totalRequests
      = empty_state.conn.totalRequests + 1 :=
  c4_total_requests_every_write empty_state [7] none (by decide)

/-- C4 counterexample: a one-byte write is rejected as too short, yet
`total_requests` goes from 0 to 1. -/
theorem c4_counterexample_rejected_write_counts :
    (WriteValue empty_state [99] none).2 = .tooShort ∧
    empty_state.conn.totalRequests = 0 ∧
    (WriteValue empty_state [99] none).1.conn.totalRequests = 1 :=
  ⟨by decide, by decide, by decide⟩

/-- C5 (amended): no per-entry size cap exists.  A continuation frame for
a known entry is appended in full no matter how large the buffer already
is or becomes; the entry stays in the table and the write completes
normally (no 413 path exists in the code). -/
theorem c5_no_size_cap (st : ServiceState) (value : List Nat)
    (d : Option String) (buf : List Nat)
    (h17 : ¬ value.length < 17)
    (h1 : value.getD 16 0 &&& 1 = 0)
    (h2 : value.getD 16 0 &&& 2 = 0)
    (hfound : dictLookup st.requestData (value.take 16) = some buf) :
    dictLookup (WriteValue st value d).1.requestData (value.take 16)
        = some (buf ++ value.drop 17) ∧
    (WriteValue st value d).2 = .noSpawn :=
  writeValue_append_keeps st value d buf h17 h1 h2 hfound

theorem c5_no_size_cap_witness :
    dictLookup (WriteValue ⟨[(sample_id, [1])], conn0⟩ (sample_id ++ [0, 2])
        none).1.requestData ((sample_id ++ [0, 2]).take 16) = some ([1] ++ [2]) :=
  (c5_no_size_cap ⟨[(sample_id, [1])], conn0⟩ (sample_id ++ [0, 2]) none [1]
    (by decide) (by decide) (by decide) (by decide)).1

/-- C5 counterexample: an entry already holding exactly 1 MiB accepts one
more payload byte — afterwards the table holds an entry of 1048577 bytes
(> 1 MiB), and the write returns normally instead of dropping the entry
and producing a 413 response. -/
theorem c5_counterexample_entry_exceeds_cap :
    dictLookup (WriteValue cap_state cap_frame none).1.requestData sample_id
        = some (big_buf ++ [42]) ∧
    1048576 < (big_buf ++ [42]).length ∧
    (WriteValue cap_state cap_frame none).2 = .noSpawn := by
  have h16 : cap_frame.take 16 = sample_id := by decide
  have hfound : dictLookup cap_state.requestData (cap_frame.take 16) = some big_buf := by
    rw [h16]
    simp [cap_state, dictLookup]
  have h := writeValue_append_keeps cap_state cap_frame none big_buf
    (by decide) (by decide) (by decide) hfound
  refine ⟨?_, ?_, h.2⟩
  · have h17 : cap_frame.drop 17 = [42] := by decide
    rw [← h16, ← h17]
    exact h.1
  · rw [List.length_append, big_buf, List.length_replicate, List.length_singleton]
    omega

/-- C6 (amended): a completed payload whose request line does not have
exactly three space-separated tokens makes the handler return silently —
no response at all is stored or notified; a header line without a colon
(or a missing blank line) surfaces as the synthesized 500 response.  No
400 Bad Request is ever produced. -/
theorem c6_malformed_never_400 :
    (∀ (origin : Origin) (req : List Char),
        (splitOnChar ' ' ((splitCRLF req).headD [])).length ≠ 3 →
        process_http_request origin req = .silentDrop) ∧
    (∀ origin : Origin,
        process_http_request origin (("GET / HTTP/1.1\r\nNoColonHere\r\n\r\n").toList)
          = .response (error_response valueErrorUnpackMsg)) := by
  constructor
  · intro origin req h
    have hb : parse_http_request req = .badRequestLine := by
      simp only [parse_http_request]
      rw [if_pos h]
    unfold process_http_request
    rw [hb]
  · intro origin
    have hp : parse_http_request (("GET / HTTP/1.1\r\nNoColonHere\r\n\r\n").toList)
        = .exc valueErrorUnpackMsg := by decide
    unfold process_http_request
    rw [hp]

theorem c6_malformed_never_400_witness :
    process_http_request
        (fun _ _ _ _ => OriginResult.ok 200 (("OK").toList) [] (("hi").toList))
        (("HEAD\r\n\r\n").toList)
      = .silentDrop :=
  c6_malformed_never_400.1
    (fun _ _ _ _ => OriginResult.ok 200 (("OK").toList) [] (("hi").toList))
    (("HEAD\r\n\r\n").toList) (by decide)

/-- C6 counterexample: the malformed request line `GET /` (two tokens)
produces no response at all — a silent drop — instead of the
`400 Bad Request` the claim requires. -/
theorem c6_counterexample_bad_line_silent :
    process_http_request
        (fun _ _ _ _ => OriginResult.ok 200 (("OK").toList) [] (("hi").toList))
        (("GET /\r\n\r\n").toList)
      = .silentDrop := by decide

/-- C7 (amended): only the length guard is enforced.  A write shorter
than 17 bytes leaves the reassembly table unchanged, but reserved flag
bits are never checked: any frame of length at least 17 whose FIRST bit
is set — whatever `flags & 0xFC` — is decoded as (id = bytes 0..15,
flags = byte 16, payload = the remainder) and stored. -/
theorem c7_only_length_guard :
    (∀ (st : ServiceState) (value : List Nat) (d : Option String),
        value.length < 17 →
        (WriteValue st value d).1.requestData = st.requestData ∧
        (WriteValue st value d).2 = .tooShort) ∧
    (∀ (st : ServiceState) (value : List Nat) (d : Option String),
        ¬ value.length < 17 →
        value.getD 16 0 &&& 1 ≠ 0 →
        dictLookup (WriteValue st value d).1.requestData (value.take 16)
          = some (value.drop 17)) := by
  constructor
  · intro st value d h
    constructor
    · rw [WriteValue_requestData, write_frame_fst, if_pos h]
    · rw [WriteValue_outcome]
      unfold write_frame
      rw [if_pos h]
  · intro st value d h17 h1
    rw [WriteValue_requestData, write_frame_fst, if_neg h17,
      new_table_first _ _ h1]
    exact dictLookup_insert_self _ _ _

theorem c7_only_length_guard_witness :
    (WriteValue empty_state [1, 2, 3] none).1.requestData
        = empty_state.requestData ∧
    dictLookup (WriteValue empty_state (sample_id ++ [5, 42]) none).1.requestData
        ((sample_id ++ [5, 42]).take 16) = some ((sample_id ++ [5, 42]).drop 17) :=
  ⟨(c7_only_length_guard.1 empty_state [1, 2, 3] none (by decide)).1,
   c7_only_length_guard.2 empty_state (sample_id ++ [5, 42]) none
     (by decide) (by decide)⟩

/-- C7 counterexample: flags byte 5 has a reserved bit set
(`5 & 0xFC = 4 ≠ 0`), yet the write is processed rather than ignored —
it creates a table entry. -/
theorem c7_counterexample_reserved_bits_processed :
    (5 : Nat) &&& 0xFC ≠ 0 ∧
    empty_state.requestData = [] ∧
    (WriteValue empty_state (sample_id ++ [5, 42]) none).1.requestData
        = [(sample_id, [42])] :=
  ⟨by decide, by decide, by decide⟩

/-- C8 (amended): the handler stores headers in a Python dict keyed by
the exact stripped name: insertion order of first occurrence is kept and
a fresh name is appended at the end, but duplicate names collapse to the
last value (both shown on concrete requests) and comparison is
case-sensitive, so `X-A` and `x-a` make two distinct entries. -/
theorem c8_headers_are_last_wins_dict :
    parse_http_request dup_header_req
      = .ok (("GET").toList) (("/").toList) (("HTTP/1.1").toList)
          [(("X-A").toList, ("2").toList)] [] ∧
    parse_http_request case_header_req
      = .ok (("GET").toList) (("/").toList) (("HTTP/1.1").toList)
          [(("X-A").toList, ("1").toList), (("x-a").toList, ("2").toList)] [] ∧
    ∀ (d : Headers) (k v : List Char),
      (k ∉ d.map Prod.fst →
        (dictInsert d k v).map Prod.fst = d.map Prod.fst ++ [k]) ∧
      (k ∈ d.map Prod.fst →
        (dictInsert d k v).map Prod.fst = d.map Prod.fst) := by
  refine ⟨by decide, by decide, fun d k v => ⟨fun h => ?_, fun h => ?_⟩⟩
  · have hk := dictInsert_keys d k v
    rw [if_neg h] at hk
    exact hk
  · have hk := dictInsert_keys d k v
    rw [if_pos h] at hk
    exact hk

theorem c8_headers_are_last_wins_dict_witness :
    (dictInsert ([] : Headers) (("X").toList) (("9").toList)).map Prod.fst
        = ([] : Headers).map Prod.fst ++ [("X").toList] ∧
    (dictInsert [((("X").toList), (("1").toList))] (("X").toList)
        (("9").toList)).map Prod.fst
      = [((("X").toList), (("1").toList))].map Prod.fst :=
  ⟨(c8_headers_are_last_wins_dict.2.2 [] (("X").toList) (("9").toList)).1
      (by decide),
   (c8_headers_are_last_wins_dict.2.2 [((("X").toList), (("1").toList))]
      (("X").toList) (("9").toList)).2 (by decide)⟩

/-- C8 counterexample: in a request repeating the header name `X-A`, the
parsed record keeps only the last value — the claimed ordered multimap
with both occurrences retained is not what the code builds. -/
theorem c8_counterexample_duplicates_collapse :
    parse_http_request dup_header_req
      ≠ .ok (("GET").toList) (("/").toList) (("HTTP/1.1").toList)
          [(("X-A").toList, ("1").toList), (("X-A").toList, ("2").toList)] [] ∧
    parse_http_request dup_header_req
      = .ok (("GET").toList) (("/").toList) (("HTTP/1.1").toList)
          [(("X-A").toList, ("2").toList)] [] :=
  ⟨by decide, by decide⟩

/-- C9: a frame of length ≥ 17 with FIRST clear and LAST set whose
correlation id is not in the reassembly table drives the handler into the
uncaught `KeyError`: the unknown-id continuation is logged and ignored,
but the final `request_data[req_id]` lookup used to build the worker
arguments then fails. -/
theorem c9_unknown_last_raises_keyerror (st : ServiceState) (value : List Nat)
    (d : Option String)
    (h17 : ¬ value.length < 17)
    (h1 : value.getD 16 0 &&& 1 = 0)
    (h2 : value.getD 16 0 &&& 2 ≠ 0)
    (hnone : dictLookup st.requestData (value.take 16) = none) :
    (WriteValue st value d).2 = .keyError := by
  rw [WriteValue_outcome]
  unfold write_frame
  rw [if_neg h17, if_pos h2, new_table_unknown _ _ h1 hnone, hnone]

theorem c9_unknown_last_raises_keyerror_witness :
    (WriteValue empty_state (sample_id ++ [2]) none).2 = .keyError :=
  c9_unknown_last_raises_keyerror empty_state (sample_id ++ [2]) none
    (by decide) (by decide) (by decide) (by decide)

/-- C10: `mark_connected` and `mark_disconnected` are idempotent.
Marking a device connected when it is already in the connected set, or
disconnected when it is not, changes neither `total_connections` nor
`connected_clients` (the whole state is in fact unchanged), and applying
either operation twice equals applying it once. -/
theorem c10_mark_idempotent (s : ConnState) (p : String) :
    (p ∈ s.connectedDevices →
        (mark_connected s p).totalConnections = s.totalConnections ∧
        (mark_connected s p).connectedClients = s.connectedClients) ∧
    (p ∉ s.connectedDevices →
        (mark_disconnected s p).totalConnections = s.totalConnections ∧
        (mark_disconnected s p).connectedClients = s.connectedClients) ∧
    mark_connected (mark_connected s p) p = mark_connected s p ∧
    mark_disconnected (mark_disconnected s p) p = mark_disconnected s p := by
  refine ⟨fun h => ?_, fun h => ?_, ?_, ?_⟩
  · rw [mark_connected_mem s p h]
    exact ⟨rfl, rfl⟩
  · rw [mark_disconnected_not_mem s p h]
    exact ⟨rfl, rfl⟩
  · by_cases h : p ∈ s.connectedDevices
    · rw [mark_connected_mem s p h]
      exact mark_connected_mem s p h
    · exact mark_connected_mem _ p
        (by rw [mark_connected_devices s p h]; exact Finset.mem_insert_self p _)
  · by_cases h : p ∈ s.connectedDevices
    · exact mark_disconnected_not_mem _ p
        (by rw [mark_disconnected_devices s p h]; exact Finset.not_mem_erase p _)
    · rw [mark_disconnected_not_mem s p h]
      exact mark_disconnected_not_mem s p h

theorem c10_mark_idempotent_witness :
    (mark_connected conn_in ("d")).totalConnections = conn_in.totalConnections ∧
    (mark_disconnected conn0 ("d")).connectedClients = conn0.connectedClients ∧
    mark_connected (mark_connected conn_in ("d")) ("d")
      = mark_connected conn_in ("d") :=
  ⟨((c10_mark_idempotent conn_in ("d")).1 (by decide)).1,
   ((c10_mark_idempotent conn0 ("d")).2.1 (by decide)).2,
   (c10_mark_idempotent conn_in ("d")).2.2.1⟩

end BleProxy
